import Mathlib

/-!
Verification of the crvUSD savor API's position reconciliation and
freshness-cached aggregation logic.

The definitions below are a shallow embedding of the TypeScript source:

* `src/api/lending.ts` — the multichain lending handler `POST`
  (validation, cache freshness, per-vault totals, watermark write);
* `src/unnamed/part_001` — `fetchVaultsAndEventsForChain` and its per-vault
  loop body (events-gated valuation read, net-flow totals, zero-redeem branch);
* `src/api/savings.ts` — the per-chain savings handler `GET`
  (unconditional valuation read, empty-log early return, totals, cache write);
* `src/unnamed/part_002` — the per-user savings handler (stats fetch with
  catch-and-zero, paginated events fetch with catch-and-empty, totals).

On-chain decimal amounts (`Number(formatUnits(x, 18))`) are modelled as ℚ;
block numbers and timestamps as ℤ/ℚ.  JavaScript `Math.max(...xs)`, which
returns `-Infinity` on an empty argument list, is modelled by the explicit
`JsNum` type.  I/O is modelled by explicit effect traces returned alongside
each handler's response.
-/

namespace CrvusdSavor

/-- Event kind, from the `EventType` enum (`deposit` / `withdraw`) shared by
all handlers. -/
inductive EventType where
  | deposit
  | withdraw
deriving DecidableEq, Repr

/-- A ledger event as built by the handlers: kind, 18-decimal asset amount,
transaction hash, and ordering key (`blockNumber` in `lending.ts` /
`savings.ts`, event timestamp in `part_001` / `part_002`). -/
structure Event where
  type : EventType
  amount : ℚ
  hash : String
  ordinal : ℤ
deriving DecidableEq, Repr

/-- Amount of an event when it is a deposit, else 0 (summing helper). -/
def depAmt (e : Event) : ℚ :=
  if e.type = EventType.deposit then e.amount else 0

/-- Amount of an event when it is a withdrawal, else 0 (summing helper). -/
def wdAmt (e : Event) : ℚ :=
  if e.type = EventType.withdraw then e.amount else 0

/-- Sum Σdeposits: sum of the amounts of the deposit events of a sequence. -/
def sumDeposits (events : List Event) : ℚ :=
  events.foldl (fun acc e => if e.type = EventType.deposit then acc + e.amount else acc) 0

/-- Sum Σwithdrawals: sum of the amounts of the withdraw events of a sequence. -/
def sumWithdrawals (events : List Event) : ℚ :=
  events.foldl (fun acc e => if e.type = EventType.withdraw then acc + e.amount else acc) 0

/-- The signed-accumulator reduce of `lending.ts` lines 439-445 and
`savings.ts` lines 249-255: deposits add, withdrawals subtract. -/
def reduceNetFlow (events : List Event) : ℚ :=
  events.foldl
    (fun acc event =>
      if event.type = EventType.deposit then acc + event.amount else acc - event.amount) 0

/-- Variable `totalDeposited` of `lending.ts` lines 436-446 and `savings.ts` lines
246-256: the net-flow reduce, taken only when `redeemValue > 0 &&
events.length > 0`, else 0. -/
def reduceTotalDeposited (events : List Event) (redeemValue : ℚ) : ℚ :=
  if 0 < redeemValue ∧ 0 < events.length then reduceNetFlow events else 0

/-- The two-accumulator `forEach` of `part_001` lines 335-341 (also
`savings.ts` lines 219-225): tallies `depositedInVault` and
`withdrawnFromVault` in one pass. -/
def tallyFlows (events : List Event) : ℚ × ℚ :=
  events.foldl
    (fun acc event =>
      if event.type = EventType.deposit then (acc.1 + event.amount, acc.2)
      else (acc.1, acc.2 + event.amount)) (0, 0)

/-- Lines 343-348 of `part_001`: given the tallied flows and the (possibly zero)
redeem value, produce `(deposited, earnings)`.  When `redeemValue === 0` the
position is treated as exited: `deposited := 0`,
`earnings := withdrawnFromVault - depositedInVault`. -/
def computeVaultTotals (events : List Event) (redeemValue : ℚ) : ℚ × ℚ :=
  let flows := tallyFlows events
  let depositedInVault := flows.1
  let withdrawnFromVault := flows.2
  let deposited := depositedInVault - withdrawnFromVault
  let earnings := redeemValue - deposited
  if redeemValue = 0 then (0, withdrawnFromVault - depositedInVault)
  else (deposited, earnings)

/-- Lines 211-213 of `part_002`: `events.filter(deposit).reduce(+amount, 0)`. -/
def filteredDepositsSum (events : List Event) : ℚ :=
  (events.filter (fun event => decide (event.type = EventType.deposit))).foldl
    (fun acc event => acc + event.amount) 0

/-- Lines 214-216 of `part_002`: `events.filter(withdraw).reduce(+amount, 0)`. -/
def filteredWithdrawalsSum (events : List Event) : ℚ :=
  (events.filter (fun event => decide (event.type = EventType.withdraw))).foldl
    (fun acc event => acc + event.amount) 0

/-- Insert an event into a list kept in descending `ordinal` order; used to
model the JavaScript `sort((a, b) => b.ordinal - a.ordinal)`. -/
def insertDesc (e : Event) : List Event → List Event
  | [] => [e]
  | x :: xs => if x.ordinal ≤ e.ordinal then e :: x :: xs else x :: insertDesc e xs

/-- The `sort((a, b) => b.blockNumber - a.blockNumber)` (resp. descending
timestamp) applied to every returned event list, modelled as an insertion
sort by descending ordinal. -/
def sortByOrdinalDesc (events : List Event) : List Event :=
  events.foldr insertDesc []

/-- A raw on-chain log as consumed by `lending.ts` / `savings.ts`: the
`formatUnits`-converted asset amount, transaction hash, and block number. -/
structure RawLog where
  amount : ℚ
  hash : String
  blockNumber : ℤ
deriving DecidableEq, Repr

/-- Mapping a raw log to an `Event` of the given kind (`lending.ts` lines
417-433, `savings.ts` lines 227-243). -/
def logToEvent (t : EventType) (log : RawLog) : Event :=
  ⟨t, log.amount, log.hash, log.blockNumber⟩

/-- Concatenation `[...depositLogs.map(...), ...withdrawLogs.map(...)].sort(desc)`:
the displayed event list of `lending.ts` / `savings.ts`. -/
def buildEventList (depositLogs withdrawLogs : List RawLog) : List Event :=
  sortByOrdinalDesc
    (depositLogs.map (logToEvent EventType.deposit) ++
      withdrawLogs.map (logToEvent EventType.withdraw))

end CrvusdSavor

namespace CrvusdSavor

/-! ### Basic algebraic lemmas about the sums -/

theorem foldl_add_map_sum (f : Event → ℚ) (l : List Event) (acc : ℚ) :
    l.foldl (fun a e => a + f e) acc = acc + (l.map f).sum := by
  induction l generalizing acc with
  | nil => simp
  | cons e t ih => simp [ih]; ring

theorem sumDeposits_eq (l : List Event) : sumDeposits l = (l.map depAmt).sum := by
  have hfun : (fun (a : ℚ) (e : Event) =>
      if e.type = EventType.deposit then a + e.amount else a) =
      fun a e => a + depAmt e := by
    funext a e
    by_cases h : e.type = EventType.deposit <;> simp [depAmt, h]
  simpa [sumDeposits, hfun] using foldl_add_map_sum depAmt l 0

theorem sumWithdrawals_eq (l : List Event) :
    sumWithdrawals l = (l.map wdAmt).sum := by
  have hfun : (fun (a : ℚ) (e : Event) =>
      if e.type = EventType.withdraw then a + e.amount else a) =
      fun a e => a + wdAmt e := by
    funext a e
    by_cases h : e.type = EventType.withdraw <;> simp [wdAmt, h]
  simpa [sumWithdrawals, hfun] using foldl_add_map_sum wdAmt l 0

theorem reduceNetFlow_aux (l : List Event) (acc : ℚ) :
    l.foldl
      (fun a event =>
        if event.type = EventType.deposit then a + event.amount else a - event.amount) acc
      = acc + (l.map depAmt).sum - (l.map wdAmt).sum := by
  induction l generalizing acc with
  | nil => simp
  | cons e t ih =>
    rcases he : e.type with _ | _ <;>
      simp [ih, depAmt, wdAmt, he] <;> ring

theorem reduceNetFlow_eq (l : List Event) :
    reduceNetFlow l = (l.map depAmt).sum - (l.map wdAmt).sum := by
  simpa [reduceNetFlow] using reduceNetFlow_aux l 0

theorem tallyFlows_aux (l : List Event) (acc : ℚ × ℚ) :
    l.foldl
      (fun a event =>
        if event.type = EventType.deposit then (a.1 + event.amount, a.2)
        else (a.1, a.2 + event.amount)) acc
      = (acc.1 + (l.map depAmt).sum, acc.2 + (l.map wdAmt).sum) := by
  induction l generalizing acc with
  | nil => simp
  | cons e t ih =>
    rcases he : e.type with _ | _ <;>
      simp [ih, depAmt, wdAmt, he] <;> ring

theorem tallyFlows_eq (l : List Event) :
    tallyFlows l = ((l.map depAmt).sum, (l.map wdAmt).sum) := by
  simpa [tallyFlows] using tallyFlows_aux l (0, 0)

theorem filteredDepositsSum_eq (l : List Event) :
    filteredDepositsSum l = (l.map depAmt).sum := by
  rw [filteredDepositsSum,
    foldl_add_map_sum (fun e => e.amount) (l.filter fun e => decide (e.type = EventType.deposit)) 0]
  induction l with
  | nil => simp
  | cons e t ih =>
    by_cases h : e.type = EventType.deposit <;>
      simp [List.filter_cons, h, depAmt, ih] <;> ring_nf <;>
        simpa using ih

theorem filteredWithdrawalsSum_eq (l : List Event) :
    filteredWithdrawalsSum l = (l.map wdAmt).sum := by
  rw [filteredWithdrawalsSum,
    foldl_add_map_sum (fun e => e.amount) (l.filter fun e => decide (e.type = EventType.withdraw)) 0]
  induction l with
  | nil => simp
  | cons e t ih =>
    by_cases h : e.type = EventType.withdraw <;>
      simp [List.filter_cons, h, wdAmt, ih] <;> ring_nf <;>
        simpa using ih

/-! ### Permutation and sort lemmas -/

theorem insertDesc_perm (e : Event) (l : List Event) :
    (insertDesc e l).Perm (e :: l) := by
  induction l with
  | nil => exact List.Perm.refl _
  | cons x xs ih =>
    by_cases h : x.ordinal ≤ e.ordinal
    · simp [insertDesc, h]
    · simp only [insertDesc, h, if_neg]
      exact (ih.cons x).trans (List.Perm.swap e x xs)

theorem sortByOrdinalDesc_perm (l : List Event) :
    (sortByOrdinalDesc l).Perm l := by
  induction l with
  | nil => exact List.Perm.refl _
  | cons x xs ih =>
    have : sortByOrdinalDesc (x :: xs) = insertDesc x (sortByOrdinalDesc xs) := rfl
    rw [this]
    exact (insertDesc_perm x (sortByOrdinalDesc xs)).trans (ih.cons x)

theorem sumDeposits_perm {l₁ l₂ : List Event} (h : l₁.Perm l₂) :
    sumDeposits l₁ = sumDeposits l₂ := by
  rw [sumDeposits_eq, sumDeposits_eq]
  exact (h.map depAmt).sum_eq

theorem sumWithdrawals_perm {l₁ l₂ : List Event} (h : l₁.Perm l₂) :
    sumWithdrawals l₁ = sumWithdrawals l₂ := by
  rw [sumWithdrawals_eq, sumWithdrawals_eq]
  exact (h.map wdAmt).sum_eq

/-! ### JavaScript `Math.max`, the cache staleness predicate, and effects -/

/-- A JavaScript number restricted to the values produced by
`Math.max(...blockNumbers)`: an integer, or `-Infinity` for the empty
argument list. -/
inductive JsNum where
  | negInf
  | int (n : ℤ)
deriving DecidableEq, Repr

/-- Binary `Math.max` on `JsNum` (`-Infinity` is the identity). -/
def jsMaxNum : JsNum → JsNum → JsNum
  | JsNum.negInf, y => y
  | JsNum.int a, JsNum.negInf => JsNum.int a
  | JsNum.int a, JsNum.int b => JsNum.int (if a ≤ b then b else a)

/-- JavaScript `Math.max(...xs)` over a list of integers: `-Infinity` when `xs` is
empty (`lending.ts` lines 479-483). -/
def jsMathMax (xs : List ℤ) : JsNum :=
  xs.foldr (fun x acc => jsMaxNum (JsNum.int x) acc) JsNum.negInf

/-- JavaScript `Math.max(...xs)` over a list of already-maxed values (the outer
`Math.max` of `lending.ts` line 479). -/
def jsMathMaxJs (xs : List JsNum) : JsNum :=
  xs.foldr jsMaxNum JsNum.negInf

/-- Predicate `isCacheEntryUpdateNeeded` (identical in `lending.ts` lines 255-264,
`part_001` lines 199-208, `part_002` lines 55-64, `savings.ts` lines
98-107): stale iff `|updateTimestamp − now|` in minutes strictly exceeds
the freshness window. -/
def isCacheEntryUpdateNeeded (updateTimestamp nowMs : ℚ)
    (minutesCacheInterval : ℚ) : Bool :=
  let msBetweenDates := |updateTimestamp - nowMs|
  let minutesBetweenDates := msBetweenDates / (60 * 1000)
  decide (minutesCacheInterval < minutesBetweenDates)

/-- A timestamped cache value (`RedisCacheEntry<T>`). -/
structure CacheEntry (α : Type) where
  updateTimestamp : ℚ
  data : α

/-- Kinds of I/O a handler run performs, in order: Redis reads, the vault
catalog fetch, event-source reads, valuation (balanceOf/previewRedeem)
reads, the savings stats fetch, and Redis writes. -/
inductive Effect where
  | cacheRead
  | vaultListFetch
  | eventsRead
  | valuationRead
  | statsFetch
  | cacheWrite
deriving DecidableEq, Repr

/-! ### `part_001`: per-vault loop body of `fetchVaultsAndEventsForChain` -/

/-- One vault's computed position (`VaultWithEvents` of `part_001`, computed
fields only; the static vault metadata is spread through unchanged). -/
structure VaultPosition where
  deposited : ℚ
  redeemValue : ℚ
  earnings : ℚ
  events : List Event
deriving DecidableEq, Repr

/-- Loop body of `fetchVaultsAndEventsForChain` (`part_001` lines 307-357)
for one vault: `balanceOf`/`previewRedeem` are read only when the fetched
event list is non-empty (`redeemValue` stays 0 otherwise); the flows are
tallied and lines 343-348 produce `deposited`/`earnings`.  The returned
`Bool` records whether the Valuation Source was invoked. -/
def fetchVaultPositionStep (events : List Event) (oracleRedeemValue : ℚ) :
    VaultPosition × Bool :=
  let valuationInvoked := decide (0 < events.length)
  let redeemValue := if 0 < events.length then oracleRedeemValue else 0
  let totals := computeVaultTotals events redeemValue
  (⟨totals.1, redeemValue, totals.2, events⟩, valuationInvoked)

/-! ### `lending.ts`: the multichain lending handler -/

/-- Per-vault collaborator inputs for one `lending.ts` cycle: vault catalog
metadata plus the event-filter logs and the `previewRedeem` result for this
vault. -/
structure VaultData where
  address : String
  collateral : String
  borrowed : String
  chainId : String
  lendApyPcent : ℚ
  depositLogs : List RawLog
  withdrawLogs : List RawLog
  redeemValue : ℚ
deriving DecidableEq, Repr

/-- `VaultWithEvents` as pushed by `lending.ts` lines 450-476 (no
`deposited` field there). -/
structure VaultWithEvents where
  vault : String
  redeemValue : ℚ
  earnings : ℚ
  collateral : String
  borrowed : String
  chainId : String
  lendApyPcent : ℚ
  events : List Event
deriving DecidableEq, Repr

/-- Loop body of `lending.ts` lines 353-477 for one vault: build the sorted
event list, compute `totalDeposited` (gated on `redeemValue > 0 &&
events.length > 0`), `earnings = redeemValue - totalDeposited`, and push the
snapshot whose `events` field is the unsorted deposit++withdraw concat
(lines 458-475). -/
def lendingVaultStep (v : VaultData) : VaultWithEvents :=
  let events := buildEventList v.depositLogs v.withdrawLogs
  let totalDeposited := reduceTotalDeposited events v.redeemValue
  let earnings := v.redeemValue - totalDeposited
  { vault := v.address
    redeemValue := v.redeemValue
    earnings := earnings
    collateral := v.collateral
    borrowed := v.borrowed
    chainId := v.chainId
    lendApyPcent := v.lendApyPcent
    events := v.depositLogs.map (logToEvent EventType.deposit) ++
      v.withdrawLogs.map (logToEvent EventType.withdraw) }

/-- Watermark computation of `lending.ts` lines 479-483:
`Math.max(...vaults.map(v => Math.max(...v.events.map(e => e.blockNumber))))`. -/
def lendingLastBlock (snapshots : List VaultWithEvents) : JsNum :=
  jsMathMaxJs (snapshots.map (fun v => jsMathMax (v.events.map (fun e => e.ordinal))))

/-- Response body of the `lending.ts` handler. -/
inductive LendingBody where
  | configError
  | invalidAddress
  | unsupportedChain
  | cachedData (d : List VaultWithEvents)
  | success (d : List VaultWithEvents)
deriving DecidableEq, Repr

/-- Outcome of one `lending.ts` request: HTTP status, body, the I/O trace,
and the watermark value written to the `last-event-block` key (if any). -/
structure LendingOutcome where
  status : ℕ
  body : LendingBody
  trace : List Effect
  watermarkWrite : Option JsNum
deriving DecidableEq, Repr

/-- Values of the `SupportedChains` enum of `lending.ts` / `savings.ts`. -/
def supportedChains : List String := ["ethereum", "arbitrum"]

/-- Recompute path of `lending.ts` (lines 345-493): fetch the vault list,
run the per-vault loop, compute the watermark, write watermark and snapshot
set, and respond 200. -/
def lendingRecompute (readTrace : List Effect) (vaults : List VaultData) :
    LendingOutcome :=
  let allVaultsEvents := vaults.map lendingVaultStep
  let lastBlock := lendingLastBlock allVaultsEvents
  { status := 200
    body := LendingBody.success allVaultsEvents
    trace := readTrace ++ [Effect.vaultListFetch] ++
      (vaults.map (fun _ => [Effect.eventsRead, Effect.valuationRead])).flatten ++
      [Effect.cacheWrite, Effect.cacheWrite]
    watermarkWrite := some lastBlock }

/-- The `lending.ts` handler `POST` (lines 312-494): config check, address
and chain validation (before any I/O), the two cache reads, the freshness
check with a 60-minute window, and otherwise the recompute path.
`isAddr` abstracts viem's `isAddress`. -/
def lendingPOST (isAddr : String → Bool) (redisUrl : Option String)
    (user chain : String)
    (cacheEntry : Option (CacheEntry (List VaultWithEvents)))
    (now : ℚ) (vaults : List VaultData) : LendingOutcome :=
  match redisUrl with
  | none => ⟨500, LendingBody.configError, [], none⟩
  | some _ =>
    if !isAddr user then ⟨400, LendingBody.invalidAddress, [], none⟩
    else if !(supportedChains.contains chain) then
      ⟨400, LendingBody.unsupportedChain, [], none⟩
    else
      let readTrace := [Effect.cacheRead, Effect.cacheRead]
      match cacheEntry with
      | some entry =>
        if !isCacheEntryUpdateNeeded entry.updateTimestamp now 60 then
          ⟨200, LendingBody.cachedData entry.data, readTrace, none⟩
        else lendingRecompute readTrace vaults
      | none => lendingRecompute readTrace vaults

/-! ### `savings.ts`: the per-chain savings handler -/

/-- `SavingsData` of `savings.ts`. -/
structure SavingsData where
  totalDeposited : ℚ
  totalRevenues : ℚ
  events : List Event
deriving DecidableEq, Repr

/-- Response body of the `savings.ts` handler (the `status: "empty"`
early return carries an all-zero payload). -/
inductive SavingsBody where
  | configError
  | invalidAddress
  | invalidChain
  | cachedData (d : SavingsData)
  | emptyResult
  | success (d : SavingsData)
deriving DecidableEq, Repr

/-- Outcome of one `savings.ts` request. -/
structure SavingsOutcome where
  status : ℕ
  body : SavingsBody
  trace : List Effect
deriving DecidableEq, Repr

/-- Recompute path of `savings.ts` (lines 151-271).  The `balanceOf` read
(line 182) and the `previewRedeem` read (lines 196-201) both happen before
the `allLogs.length === 0` check at line 206, so the valuation reads appear
in the trace even on the empty early return, which performs no cache
write. -/
def savingsRecompute (depositLogs withdrawLogs : List RawLog)
    (redeemValue : ℚ) : SavingsOutcome :=
  let fetchTrace := [Effect.cacheRead, Effect.valuationRead, Effect.eventsRead,
    Effect.eventsRead, Effect.valuationRead]
  if depositLogs.length + withdrawLogs.length = 0 then
    ⟨200, SavingsBody.emptyResult, fetchTrace⟩
  else
    let events := buildEventList depositLogs withdrawLogs
    let totalDeposited := reduceTotalDeposited events redeemValue
    let totalRevenues := redeemValue - totalDeposited
    ⟨200, SavingsBody.success ⟨totalDeposited, totalRevenues, events⟩,
      fetchTrace ++ [Effect.cacheWrite]⟩

/-- The `savings.ts` handler `GET` (lines 83-272): config check, address and
chain validation, cache read and freshness check (60-minute window), then
the recompute path. -/
def savingsGET (isAddr : String → Bool) (redisUrl : Option String)
    (user chain : String)
    (cacheEntry : Option (CacheEntry SavingsData)) (now : ℚ)
    (depositLogs withdrawLogs : List RawLog) (redeemValue : ℚ) :
    SavingsOutcome :=
  match redisUrl with
  | none => ⟨500, SavingsBody.configError, []⟩
  | some _ =>
    if !isAddr user then ⟨400, SavingsBody.invalidAddress, []⟩
    else if !(supportedChains.contains chain) then
      ⟨400, SavingsBody.invalidChain, []⟩
    else
      match cacheEntry with
      | some entry =>
        if !isCacheEntryUpdateNeeded entry.updateTimestamp now 60 then
          ⟨200, SavingsBody.cachedData entry.data, [Effect.cacheRead]⟩
        else savingsRecompute depositLogs withdrawLogs redeemValue
      | none => savingsRecompute depositLogs withdrawLogs redeemValue

/-! ### `part_002`: the per-user savings handler -/

/-- `CurveApiUserSavingStats` after the `formatUnits` conversion of
`fetchSavingsData` (`part_002` lines 89-119). -/
structure CurveApiUserSavingStats where
  total_deposited : ℚ
  total_received : ℚ
  total_withdrawn : ℚ
  current_balance : ℚ
deriving DecidableEq, Repr

/-- `UserSavingsData` of `part_002`. -/
structure UserSavingsData where
  totalDeposited : ℚ
  currentBalance : ℚ
  totalRevenues : ℚ
  events : List Event
deriving DecidableEq, Repr

/-- The literal zero result substituted when the stats fetch fails
(`part_002` lines 192-199). -/
def zeroUserSavingsData : UserSavingsData := ⟨0, 0, 0, []⟩

/-- Response body of the `part_002` handler. -/
inductive UserSavingsBody where
  | configError
  | invalidAddress
  | cachedData (d : UserSavingsData)
  | success (d : UserSavingsData)
deriving DecidableEq, Repr

/-- Outcome of one `part_002` request. -/
structure UserSavingsOutcome where
  status : ℕ
  body : UserSavingsBody
  trace : List Effect
deriving DecidableEq, Repr

/-- Recompute path of `part_002` (lines 190-231).  A failed stats fetch
(`statsFetch = none`) is caught and answered with HTTP 200 and the zero
result, with no cache write.  A failed events fetch (`eventsFetch = none`)
is caught inside `fetchSavingsEvents` and substituted with `[]`; the
handler then continues: totals come from the stats, the zero-balance branch
recomputes `totalRevenues` from the (empty) event list, and the result is
cached. -/
def savingsUserRecompute (statsFetch : Option CurveApiUserSavingStats)
    (eventsFetch : Option (List Event)) : UserSavingsOutcome :=
  match statsFetch with
  | none =>
    ⟨200, UserSavingsBody.success zeroUserSavingsData,
      [Effect.cacheRead, Effect.statsFetch]⟩
  | some stats =>
    let events := match eventsFetch with
      | some l => l
      | none => []
    let currentBalance := stats.current_balance
    let totalDeposited := if currentBalance = 0 then 0 else stats.total_deposited
    let totalRevenues :=
      if currentBalance = 0 then
        filteredWithdrawalsSum events - filteredDepositsSum events
      else currentBalance - stats.total_deposited
    ⟨200, UserSavingsBody.success ⟨totalDeposited, currentBalance, totalRevenues, events⟩,
      [Effect.cacheRead, Effect.statsFetch, Effect.eventsRead, Effect.cacheWrite]⟩

/-- The `part_002` handler (lines 156-232), from the method/config checks:
address validation before any I/O, cache read and freshness check
(60-minute window), then the recompute path. -/
def savingsUserHandler (isAddr : String → Bool) (redisUrl : Option String)
    (user : String) (cacheEntry : Option (CacheEntry UserSavingsData))
    (now : ℚ) (statsFetch : Option CurveApiUserSavingStats)
    (eventsFetch : Option (List Event)) : UserSavingsOutcome :=
  match redisUrl with
  | none => ⟨500, UserSavingsBody.configError, []⟩
  | some _ =>
    if !isAddr user then ⟨400, UserSavingsBody.invalidAddress, []⟩
    else
      match cacheEntry with
      | some entry =>
        if !isCacheEntryUpdateNeeded entry.updateTimestamp now 60 then
          ⟨200, UserSavingsBody.cachedData entry.data, [Effect.cacheRead]⟩
        else savingsUserRecompute statsFetch eventsFetch
      | none => savingsUserRecompute statsFetch eventsFetch

/-- Page-fetching loop of `fetchSavingsEvents` (`part_002` lines 123-136),
with explicit fuel counting loop iterations.  `count` is the total reported
by the first page request; the `while (count % 10 === 0)` condition never
changes inside the loop body, which only increments `page` and appends
`pageFetch page`.  The result is `none` when the loop has not exited within
`fuel` iterations. -/
def fetchSavingsEventsLoop (pageFetch : ℕ → List Event) (count : ℕ) :
    ℕ → ℕ → List Event → Option (ℕ × List Event)
  | 0, page, allEvents =>
    if count % 10 = 0 then none else some (page, allEvents)
  | fuel + 1, page, allEvents =>
    if count % 10 = 0 then
      fetchSavingsEventsLoop pageFetch count fuel (page + 1)
        (allEvents ++ pageFetch (page + 1))
    else some (page, allEvents)

/-! ### Derived lemmas about the calculators -/

theorem reduceTotalDeposited_pos (events : List Event) (redeemValue : ℚ)
    (h : 0 < redeemValue) :
    reduceTotalDeposited events redeemValue
      = sumDeposits events - sumWithdrawals events := by
  by_cases hl : 0 < events.length
  · have hred : reduceTotalDeposited events redeemValue = reduceNetFlow events := by
      simp [reduceTotalDeposited, h, hl]
    rw [hred, reduceNetFlow_eq, sumDeposits_eq, sumWithdrawals_eq]
  · have : events = [] := List.length_eq_zero.mp (Nat.eq_zero_of_not_pos hl)
    subst this
    simp [reduceTotalDeposited, sumDeposits, sumWithdrawals]

theorem computeVaultTotals_pos (events : List Event) (redeemValue : ℚ)
    (h : 0 < redeemValue) :
    computeVaultTotals events redeemValue
      = (sumDeposits events - sumWithdrawals events,
          redeemValue - (sumDeposits events - sumWithdrawals events)) := by
  simp [computeVaultTotals, tallyFlows_eq, h.ne', sumDeposits_eq, sumWithdrawals_eq]

theorem computeVaultTotals_zero (events : List Event) :
    computeVaultTotals events 0
      = (0, sumWithdrawals events - sumDeposits events) := by
  simp [computeVaultTotals, tallyFlows_eq, sumDeposits_eq, sumWithdrawals_eq]

theorem reduceTotalDeposited_perm {l₁ l₂ : List Event} (redeemValue : ℚ)
    (h : l₁.Perm l₂) :
    reduceTotalDeposited l₁ redeemValue = reduceTotalDeposited l₂ redeemValue := by
  have hnet : reduceNetFlow l₁ = reduceNetFlow l₂ := by
    rw [reduceNetFlow_eq, reduceNetFlow_eq, (h.map depAmt).sum_eq, (h.map wdAmt).sum_eq]
  simp [reduceTotalDeposited, h.length_eq, hnet]

theorem computeVaultTotals_perm {l₁ l₂ : List Event} (redeemValue : ℚ)
    (h : l₁.Perm l₂) :
    computeVaultTotals l₁ redeemValue = computeVaultTotals l₂ redeemValue := by
  have ht : tallyFlows l₁ = tallyFlows l₂ := by
    rw [tallyFlows_eq, tallyFlows_eq, (h.map depAmt).sum_eq, (h.map wdAmt).sum_eq]
  simp [computeVaultTotals, ht]

end CrvusdSavor

namespace CrvusdSavor

/-! ## Claim theorems -/

/-- Claim C1: for every event sequence and every redeemValue > 0, the
position computation returns deposited equal to the net flow (Σdeposits −
Σwithdrawals), with no floor imposed at zero, and earnings equal to
redeemValue minus that deposited value.  Covers the shared
`totalDeposited`/`earnings` reduce of `lending.ts` and `savings.ts`
(`reduceTotalDeposited`) and the `deposited`/`earnings` of the `part_001`
per-vault computation (`computeVaultTotals`). -/
theorem c1_positive_redeem_net_flow (events : List Event) (redeemValue : ℚ)
    (h : 0 < redeemValue) :
    reduceTotalDeposited events redeemValue
        = sumDeposits events - sumWithdrawals events
    ∧ redeemValue - reduceTotalDeposited events redeemValue
        = redeemValue - (sumDeposits events - sumWithdrawals events)
    ∧ (computeVaultTotals events redeemValue).1
        = sumDeposits events - sumWithdrawals events
    ∧ (computeVaultTotals events redeemValue).2
        = redeemValue - (sumDeposits events - sumWithdrawals events) := by
  refine ⟨reduceTotalDeposited_pos events redeemValue h, ?_, ?_, ?_⟩
  · rw [reduceTotalDeposited_pos events redeemValue h]
  · rw [computeVaultTotals_pos events redeemValue h]
  · rw [computeVaultTotals_pos events redeemValue h]

/-- Witness for C1 at the spec's scenario: deposit 100 at ordinal 10,
withdraw 30 at ordinal 20, redeemValue 90 (deposited 70, earnings 20). -/
theorem c1_positive_redeem_net_flow_witness :
    (0 : ℚ) < 90 ∧
      (reduceTotalDeposited
          [⟨EventType.deposit, 100, "d", 10⟩, ⟨EventType.withdraw, 30, "w", 20⟩] 90
        = sumDeposits
            [⟨EventType.deposit, 100, "d", 10⟩, ⟨EventType.withdraw, 30, "w", 20⟩]
          - sumWithdrawals
            [⟨EventType.deposit, 100, "d", 10⟩, ⟨EventType.withdraw, 30, "w", 20⟩]
      ∧ (90 : ℚ) - reduceTotalDeposited
          [⟨EventType.deposit, 100, "d", 10⟩, ⟨EventType.withdraw, 30, "w", 20⟩] 90
        = 90 - (sumDeposits
            [⟨EventType.deposit, 100, "d", 10⟩, ⟨EventType.withdraw, 30, "w", 20⟩]
          - sumWithdrawals
            [⟨EventType.deposit, 100, "d", 10⟩, ⟨EventType.withdraw, 30, "w", 20⟩])
      ∧ (computeVaultTotals
          [⟨EventType.deposit, 100, "d", 10⟩, ⟨EventType.withdraw, 30, "w", 20⟩] 90).1
        = sumDeposits
            [⟨EventType.deposit, 100, "d", 10⟩, ⟨EventType.withdraw, 30, "w", 20⟩]
          - sumWithdrawals
            [⟨EventType.deposit, 100, "d", 10⟩, ⟨EventType.withdraw, 30, "w", 20⟩]
      ∧ (computeVaultTotals
          [⟨EventType.deposit, 100, "d", 10⟩, ⟨EventType.withdraw, 30, "w", 20⟩] 90).2
        = 90 - (sumDeposits
            [⟨EventType.deposit, 100, "d", 10⟩, ⟨EventType.withdraw, 30, "w", 20⟩]
          - sumWithdrawals
            [⟨EventType.deposit, 100, "d", 10⟩, ⟨EventType.withdraw, 30, "w", 20⟩])) :=
  ⟨by norm_num,
    c1_positive_redeem_net_flow
      [⟨EventType.deposit, 100, "d", 10⟩, ⟨EventType.withdraw, 30, "w", 20⟩] 90
      (by norm_num)⟩

/-- Claim C8: the computed deposited and earnings totals are invariant under
permutation of the event sequence, and the descending-by-ordinal display
sort in particular has no effect on them. -/
theorem c8_totals_order_independent (l₁ l₂ : List Event) (redeemValue : ℚ)
    (h : l₁.Perm l₂) :
    reduceTotalDeposited l₁ redeemValue = reduceTotalDeposited l₂ redeemValue
    ∧ redeemValue - reduceTotalDeposited l₁ redeemValue
        = redeemValue - reduceTotalDeposited l₂ redeemValue
    ∧ computeVaultTotals l₁ redeemValue = computeVaultTotals l₂ redeemValue
    ∧ reduceTotalDeposited (sortByOrdinalDesc l₁) redeemValue
        = reduceTotalDeposited l₁ redeemValue
    ∧ computeVaultTotals (sortByOrdinalDesc l₁) redeemValue
        = computeVaultTotals l₁ redeemValue := by
  refine ⟨reduceTotalDeposited_perm redeemValue h, ?_, computeVaultTotals_perm redeemValue h,
    reduceTotalDeposited_perm redeemValue (sortByOrdinalDesc_perm l₁),
    computeVaultTotals_perm redeemValue (sortByOrdinalDesc_perm l₁)⟩
  rw [reduceTotalDeposited_perm redeemValue h]

/-- Witness for C8 on a concrete two-element permutation. -/
theorem c8_totals_order_independent_witness :
    ([⟨EventType.deposit, 100, "d", 10⟩, ⟨EventType.withdraw, 30, "w", 20⟩] :
        List Event).Perm
      [⟨EventType.withdraw, 30, "w", 20⟩, ⟨EventType.deposit, 100, "d", 10⟩]
    ∧ reduceTotalDeposited
        [⟨EventType.deposit, 100, "d", 10⟩, ⟨EventType.withdraw, 30, "w", 20⟩] 90
      = reduceTotalDeposited
        [⟨EventType.withdraw, 30, "w", 20⟩, ⟨EventType.deposit, 100, "d", 10⟩] 90 :=
  ⟨List.Perm.swap _ _ _,
    (c8_totals_order_independent _ _ 90 (List.Perm.swap _ _ _)).1⟩

/-- Claim C9: the `while (count % 10 === 0)` page-fetching loop of
`fetchSavingsEvents` never exits when the reported count is a multiple of
10 (including 0), because `count` is never updated inside the loop: for
every fuel bound the loop is still running (`none`).  For a count that is
not a multiple of 10 the loop exits immediately with the first page. -/
theorem c9_pagination_loop (pageFetch : ℕ → List Event) (fuel page : ℕ)
    (allEvents : List Event) :
    fetchSavingsEventsLoop pageFetch 10 fuel page allEvents = none
    ∧ fetchSavingsEventsLoop pageFetch 0 fuel page allEvents = none
    ∧ fetchSavingsEventsLoop pageFetch 7 fuel page allEvents
        = some (page, allEvents) := by
  have stuck : ∀ (count : ℕ), count % 10 = 0 → ∀ (f p : ℕ) (acc : List Event),
      fetchSavingsEventsLoop pageFetch count f p acc = none := by
    intro count hc f
    induction f with
    | zero => intro p acc; simp [fetchSavingsEventsLoop, hc]
    | succ n ih => intro p acc; simp [fetchSavingsEventsLoop, hc]; exact ih _ _
  refine ⟨stuck 10 (by norm_num) fuel page allEvents,
    stuck 0 (by norm_num) fuel page allEvents, ?_⟩
  cases fuel <;> simp [fetchSavingsEventsLoop]

theorem isCacheEntryUpdateNeeded_shift (T w W : ℚ) :
    isCacheEntryUpdateNeeded T (T + w * 60000) W = decide (W < |w|) := by
  simp only [isCacheEntryUpdateNeeded]
  have habs : |T - (T + w * 60000)| / (60 * 1000) = |w| := by
    rw [show T - (T + w * 60000) = -(w * 60000) by ring, abs_neg, abs_mul]
    norm_num
  rw [habs]

/-- Claim C4: a cache entry written at time T with freshness window W
minutes is fresh for a read at T + w (w in minutes, i.e. at millisecond
timestamp T + w·60000) exactly when |w| ≤ W — the absolute value makes a
future `updateTimestamp` within W count as fresh too — and a read with
|w| > W triggers recomputation.  Instantiated on the `lending.ts` handler
with its 60-minute window: a fresh entry is returned verbatim with no
collaborator I/O, a stale one falls through to the recompute path. -/
theorem c4_cache_freshness (T w W : ℚ) (data : List VaultWithEvents)
    (isAddr : String → Bool) (url user chain : String) (vaults : List VaultData)
    (haddr : isAddr user = true)
    (hchain : chain ∈ supportedChains) :
    (isCacheEntryUpdateNeeded T (T + w * 60000) W = false ↔ |w| ≤ W)
    ∧ (|w| ≤ 60 →
        lendingPOST isAddr (some url) user chain (some ⟨T, data⟩)
            (T + w * 60000) vaults
          = ⟨200, LendingBody.cachedData data,
              [Effect.cacheRead, Effect.cacheRead], none⟩)
    ∧ (60 < |w| →
        (lendingPOST isAddr (some url) user chain (some ⟨T, data⟩)
            (T + w * 60000) vaults).body
          = LendingBody.success (vaults.map lendingVaultStep)) := by
  refine ⟨?_, ?_, ?_⟩
  · rw [isCacheEntryUpdateNeeded_shift]
    simp [not_lt]
  · intro hw
    have hfresh : isCacheEntryUpdateNeeded T (T + w * 60000) 60 = false := by
      rw [isCacheEntryUpdateNeeded_shift]
      simpa [not_lt] using hw
    simp [lendingPOST, haddr, hchain, hfresh]
  · intro hw
    have hstale : isCacheEntryUpdateNeeded T (T + w * 60000) 60 = true := by
      rw [isCacheEntryUpdateNeeded_shift]
      simpa using hw
    simp [lendingPOST, lendingRecompute, haddr, hchain, hstale]

/-- Witness for C4: entry written at T = 1000000, read 30 minutes later
(fresh) with window 60, on a concrete valid lending request. -/
theorem c4_cache_freshness_witness :
    ((fun (_ : String) => true) "0xuser" = true)
    ∧ ("ethereum" ∈ supportedChains)
    ∧ (isCacheEntryUpdateNeeded 1000000 (1000000 + 30 * 60000) 60 = false ↔
        |(30 : ℚ)| ≤ 60)
    ∧ (|(30 : ℚ)| ≤ 60 →
        lendingPOST (fun _ => true) (some "redis") "0xuser" "ethereum"
            (some ⟨1000000, []⟩) (1000000 + 30 * 60000) []
          = ⟨200, LendingBody.cachedData [],
              [Effect.cacheRead, Effect.cacheRead], none⟩) := by
  have h := c4_cache_freshness 1000000 30 60 [] (fun _ => true) "redis"
    "0xuser" "ethereum" [] rfl (by simp [supportedChains])
  exact ⟨rfl, by simp [supportedChains], h.1, h.2.1⟩

/-- Claim C6: a request with a malformed user address or an unsupported
chain identifier fails with a client error (400, invalid-address or
unsupported-chain body) before any I/O: the effect trace is empty — no
cache read, no collaborator call, no cache write — in the `lending.ts`
handler, and likewise (for a malformed address) in the `part_002`
handler. -/
theorem c6_validation_before_io (isAddr : String → Bool) (url user chain : String)
    (ce1 : Option (CacheEntry (List VaultWithEvents))) (now : ℚ)
    (vaults : List VaultData) (ce2 : Option (CacheEntry UserSavingsData))
    (stats : Option CurveApiUserSavingStats) (eventsFetch : Option (List Event))
    (h : isAddr user = false ∨ chain ∉ supportedChains) :
    ((lendingPOST isAddr (some url) user chain ce1 now vaults).status = 400
      ∧ ((lendingPOST isAddr (some url) user chain ce1 now vaults).body
            = LendingBody.invalidAddress
          ∨ (lendingPOST isAddr (some url) user chain ce1 now vaults).body
            = LendingBody.unsupportedChain)
      ∧ (lendingPOST isAddr (some url) user chain ce1 now vaults).trace = []
      ∧ (lendingPOST isAddr (some url) user chain ce1 now vaults).watermarkWrite
          = none)
    ∧ (isAddr user = false →
        (savingsUserHandler isAddr (some url) user ce2 now stats
            eventsFetch).status = 400
        ∧ (savingsUserHandler isAddr (some url) user ce2 now stats
            eventsFetch).trace = []) := by
  constructor
  · rcases h with h | h
    · simp [lendingPOST, h]
    · by_cases ha : isAddr user
      · simp [lendingPOST, ha, h]
      · simp [lendingPOST, Bool.of_not_eq_true ha]
  · intro ha
    simp [savingsUserHandler, ha]

/-- Witness for C6: a rejected-by-validation address on the Ethereum chain. -/
theorem c6_validation_before_io_witness :
    ((fun (_ : String) => false) "nope" = false
      ∨ "ethereum" ∉ supportedChains)
    ∧ (lendingPOST (fun _ => false) (some "redis") "nope" "ethereum"
        none 0 []).status = 400
    ∧ (lendingPOST (fun _ => false) (some "redis") "nope" "ethereum"
        none 0 []).trace = [] := by
  have h := c6_validation_before_io (fun _ => false) "redis" "nope" "ethereum"
    none 0 [] none none none (Or.inl rfl)
  exact ⟨Or.inl rfl, h.1.1, h.1.2.2.1⟩

/-- Counterexample to claim C2 as stated: in the `savings.ts` recompute path
with events deposit 50 at ordinal 5 and withdraw 60 at ordinal 9 and
redeemValue 0, the code produces `totalRevenues = 0` (since
`totalDeposited` stays 0 and `totalRevenues = redeemValue −
totalDeposited`), not Σwithdrawals − Σdeposits = 10 as the claim demands
for every cited computation. -/
theorem c2_counterexample :
    (savingsRecompute [⟨50, "d1", 5⟩] [⟨60, "w1", 9⟩] 0).body
      = SavingsBody.success
          ⟨0, 0, [⟨EventType.withdraw, 60, "w1", 9⟩, ⟨EventType.deposit, 50, "d1", 5⟩]⟩
    ∧ sumWithdrawals
          [⟨EventType.withdraw, 60, "w1", 9⟩, ⟨EventType.deposit, 50, "d1", 5⟩]
        - sumDeposits
          [⟨EventType.withdraw, 60, "w1", 9⟩, ⟨EventType.deposit, 50, "d1", 5⟩]
        = 10
    ∧ (0 : ℚ) ≠ 10 := by
  refine ⟨?_, by simp [sumWithdrawals, sumDeposits]; norm_num, by norm_num⟩
  norm_num [savingsRecompute, buildEventList, sortByOrdinalDesc, insertDesc,
    logToEvent, reduceTotalDeposited]

/-- Claim C2 (amended): when the redeem value is 0, the `part_001` per-vault
computation and the `part_002` handler produce deposited = 0 and earnings =
Σwithdrawals − Σdeposits; the `savings.ts` handler also sets totalDeposited
to 0 but computes totalRevenues = redeemValue − 0 = 0 instead of
Σwithdrawals − Σdeposits. -/
theorem c2_zero_redeem_amended (events eventsFetch : List Event)
    (stats : CurveApiUserSavingStats) (dLogs wLogs : List RawLog)
    (hcb : stats.current_balance = 0)
    (hne : dLogs.length + wLogs.length ≠ 0) :
    computeVaultTotals events 0
        = (0, sumWithdrawals events - sumDeposits events)
    ∧ (savingsUserRecompute (some stats) (some eventsFetch)).body
        = UserSavingsBody.success
            ⟨0, 0, sumWithdrawals eventsFetch - sumDeposits eventsFetch, eventsFetch⟩
    ∧ (savingsRecompute dLogs wLogs 0).body
        = SavingsBody.success ⟨0, 0, buildEventList dLogs wLogs⟩ := by
  refine ⟨computeVaultTotals_zero events, ?_, ?_⟩
  · simp [savingsUserRecompute, hcb, filteredWithdrawalsSum_eq,
      filteredDepositsSum_eq, sumWithdrawals_eq, sumDeposits_eq]
  · simp only [savingsRecompute, if_neg hne]
    simp [reduceTotalDeposited]

/-- Witness for C2 (amended) at the spec's full-exit scenario: deposit 50,
withdraw 60, redeemValue 0 — the `part_001` computation yields
deposited = 0, earnings = 10. -/
theorem c2_zero_redeem_amended_witness :
    ((⟨7, 0, 0, 0⟩ : CurveApiUserSavingStats).current_balance = 0)
    ∧ (([⟨50, "d1", 5⟩] : List RawLog).length + ([] : List RawLog).length ≠ 0)
    ∧ computeVaultTotals
        [⟨EventType.deposit, 50, "d", 5⟩, ⟨EventType.withdraw, 60, "w", 9⟩] 0
      = (0, sumWithdrawals
            [⟨EventType.deposit, 50, "d", 5⟩, ⟨EventType.withdraw, 60, "w", 9⟩]
          - sumDeposits
            [⟨EventType.deposit, 50, "d", 5⟩, ⟨EventType.withdraw, 60, "w", 9⟩]) :=
  ⟨rfl, by norm_num,
    (c2_zero_redeem_amended
      [⟨EventType.deposit, 50, "d", 5⟩, ⟨EventType.withdraw, 60, "w", 9⟩]
      [] ⟨7, 0, 0, 0⟩ [⟨50, "d1", 5⟩] [] rfl (by norm_num)).1⟩

/-- Counterexample to claim C3 as stated: in the `savings.ts` handler a
request with no events still invokes the Valuation Source — the `balanceOf`
and `previewRedeem` reads happen before the empty-logs check — so
`valuationRead` appears in the trace of the empty early return. -/
theorem c3_counterexample :
    Effect.valuationRead ∈
      (savingsGET (fun _ => true) (some "redis") "0xuser" "ethereum"
          none 0 [] [] 0).trace
    ∧ (savingsGET (fun _ => true) (some "redis") "0xuser" "ethereum"
          none 0 [] [] 0).body
        = SavingsBody.emptyResult := by
  constructor <;> simp [savingsGET, savingsRecompute, supportedChains]

/-- Claim C3 (amended): with an empty event sequence the `part_001`
per-vault computation returns the all-zero snapshot and never invokes the
Valuation Source; the `savings.ts` handler also returns a zero (empty)
result without a cache write, but only after the valuation reads have
already been performed. -/
theorem c3_empty_events_amended (oracleRedeemValue redeemValue now : ℚ)
    (isAddr : String → Bool) (url user chain : String)
    (haddr : isAddr user = true) (hchain : chain ∈ supportedChains) :
    fetchVaultPositionStep [] oracleRedeemValue = (⟨0, 0, 0, []⟩, false)
    ∧ (savingsGET isAddr (some url) user chain none now [] [] redeemValue).body
        = SavingsBody.emptyResult
    ∧ Effect.valuationRead ∈
        (savingsGET isAddr (some url) user chain none now [] [] redeemValue).trace
    ∧ Effect.cacheWrite ∉
        (savingsGET isAddr (some url) user chain none now [] [] redeemValue).trace := by
  refine ⟨?_, ?_, ?_, ?_⟩
  · simp [fetchVaultPositionStep, computeVaultTotals, tallyFlows]
  all_goals simp [savingsGET, savingsRecompute, haddr, hchain]

/-- Witness for C3 (amended) on a concrete valid request with no events. -/
theorem c3_empty_events_amended_witness :
    ((fun (_ : String) => true) "0xuser" = true)
    ∧ ("ethereum" ∈ supportedChains)
    ∧ fetchVaultPositionStep [] 5 = (⟨0, 0, 0, []⟩, false)
    ∧ (savingsGET (fun _ => true) (some "redis") "0xuser" "ethereum"
          none 0 [] [] 5).body = SavingsBody.emptyResult := by
  have h := c3_empty_events_amended 5 5 0 (fun _ => true) "redis" "0xuser"
    "ethereum" rfl (by simp [supportedChains])
  exact ⟨rfl, by simp [supportedChains], h.1, h.2.1⟩

/-! ### Lemmas about the `Math.max` watermark -/

theorem jsMaxNum_negInf_right (x : JsNum) : jsMaxNum x JsNum.negInf = x := by
  cases x <;> rfl

theorem jsMathMax_spec (l : List ℤ) (h : l ≠ []) :
    ∃ m : ℤ, jsMathMax l = JsNum.int m ∧ m ∈ l ∧ ∀ b ∈ l, b ≤ m := by
  induction l with
  | nil => exact absurd rfl h
  | cons x xs ih =>
    rcases hxs : xs with _ | ⟨y, ys⟩
    · exact ⟨x, rfl, List.mem_singleton_self x, by simp⟩
    · obtain ⟨m, hm, hmem, hub⟩ := ih (by simp [hxs])
      rw [← hxs] at *
      have hstep : jsMathMax (x :: xs) = jsMaxNum (JsNum.int x) (jsMathMax xs) := rfl
      by_cases hxm : x ≤ m
      · refine ⟨m, ?_, List.mem_cons_of_mem x hmem, ?_⟩
        · rw [hstep, hm]
          simp [jsMaxNum, hxm]
        · intro b hb
          rcases List.mem_cons.mp hb with hb | hb
          · exact hb ▸ hxm
          · exact hub b hb
      · refine ⟨x, ?_, List.mem_cons_self x xs, ?_⟩
        · rw [hstep, hm]
          simp [jsMaxNum, hxm]
        · intro b hb
          rcases List.mem_cons.mp hb with hb | hb
          · exact hb ▸ le_refl x
          · exact (hub b hb).trans (le_of_not_le hxm)

theorem jsMaxNum_assoc (x y z : JsNum) :
    jsMaxNum (jsMaxNum x y) z = jsMaxNum x (jsMaxNum y z) := by
  cases x <;> cases y <;> cases z <;> simp [jsMaxNum] <;> split_ifs <;> omega

theorem jsMathMax_append (a b : List ℤ) :
    jsMathMax (a ++ b) = jsMaxNum (jsMathMax a) (jsMathMax b) := by
  induction a with
  | nil => rfl
  | cons x xs ih =>
    show jsMaxNum (JsNum.int x) (jsMathMax (xs ++ b))
      = jsMaxNum (jsMaxNum (JsNum.int x) (jsMathMax xs)) (jsMathMax b)
    rw [ih, jsMaxNum_assoc]

theorem jsMathMaxJs_map_flatten (ls : List (List ℤ)) :
    jsMathMaxJs (ls.map jsMathMax) = jsMathMax ls.flatten := by
  induction ls with
  | nil => rfl
  | cons a rest ih =>
    show jsMaxNum (jsMathMax a) (jsMathMaxJs (rest.map jsMathMax))
      = jsMathMax (a ++ rest.flatten)
    rw [ih, jsMathMax_append]

/-- Event ordinals (block numbers) observed across all vaults of a cycle, in
order. -/
def allObservedBlocks (snapshots : List VaultWithEvents) : List ℤ :=
  (snapshots.map (fun v => v.events.map (fun e => e.ordinal))).flatten

theorem lendingLastBlock_eq (snapshots : List VaultWithEvents) :
    lendingLastBlock snapshots = jsMathMax (allObservedBlocks snapshots) := by
  rw [lendingLastBlock, allObservedBlocks, ← jsMathMaxJs_map_flatten, List.map_map]
  rfl

/-- Counterexample to claim C5 as stated: a reconciliation cycle in which
the single vault has no events persists `Math.max()` of an empty list,
i.e. `-Infinity` — not an integer — as the watermark. -/
theorem c5_counterexample :
    (lendingPOST (fun _ => true) (some "redis") "0xuser" "ethereum" none 0
        [⟨"0xvault", "WETH", "crvUSD", "ethereum", 1, [], [], 0⟩]).watermarkWrite
      = some JsNum.negInf
    ∧ ∀ n : ℤ, JsNum.negInf ≠ JsNum.int n := by
  constructor
  · simp [lendingPOST, lendingRecompute, lendingLastBlock, lendingVaultStep,
      jsMathMaxJs, jsMathMax, jsMaxNum, supportedChains, buildEventList,
      sortByOrdinalDesc]
  · intro n h
    cases h

/-- Claim C5 (amended): at the end of every reconciliation cycle not served
from cache in which at least one event is observed, the persisted watermark
is an integer equal to the maximum event ordinal (block number) observed
across all vaults of the cycle, and it is written alongside the new
snapshot set; when no event at all is observed the persisted value is
`Math.max()` of an empty list, `-Infinity`, which is not an integer. -/
theorem c5_watermark_amended (isAddr : String → Bool) (url user chain : String)
    (now : ℚ) (vaults : List VaultData)
    (cacheEntry : Option (CacheEntry (List VaultWithEvents)))
    (haddr : isAddr user = true) (hchain : chain ∈ supportedChains)
    (hstale : ∀ entry, cacheEntry = some entry →
      isCacheEntryUpdateNeeded entry.updateTimestamp now 60 = true)
    (hobs : allObservedBlocks (vaults.map lendingVaultStep) ≠ []) :
    ∃ m : ℤ,
      (lendingPOST isAddr (some url) user chain cacheEntry now vaults).watermarkWrite
          = some (JsNum.int m)
      ∧ m ∈ allObservedBlocks (vaults.map lendingVaultStep)
      ∧ (∀ b ∈ allObservedBlocks (vaults.map lendingVaultStep), b ≤ m)
      ∧ (lendingPOST isAddr (some url) user chain cacheEntry now vaults).body
          = LendingBody.success (vaults.map lendingVaultStep) := by
  have hrec : lendingPOST isAddr (some url) user chain cacheEntry now vaults
      = lendingRecompute [Effect.cacheRead, Effect.cacheRead] vaults := by
    rcases cacheEntry with _ | entry
    · simp [lendingPOST, haddr, hchain]
    · simp [lendingPOST, haddr, hchain, hstale entry rfl]
  obtain ⟨m, hm, hmem, hub⟩ :=
    jsMathMax_spec (allObservedBlocks (vaults.map lendingVaultStep)) hobs
  refine ⟨m, ?_, hmem, hub, ?_⟩
  · rw [hrec]
    simp [lendingRecompute, lendingLastBlock_eq, hm]
  · rw [hrec]
    rfl

/-- Witness for C5 (amended): one vault with a single deposit at block 42 —
the watermark written is 42. -/
theorem c5_watermark_amended_witness :
    (allObservedBlocks
        ([⟨"0xvault", "WETH", "crvUSD", "ethereum", 1, [⟨100, "d", 42⟩], [], 5⟩].map
          lendingVaultStep) ≠ [])
    ∧ ∃ m : ℤ,
        (lendingPOST (fun _ => true) (some "redis") "0xuser" "ethereum" none 0
            [⟨"0xvault", "WETH", "crvUSD", "ethereum", 1, [⟨100, "d", 42⟩], [], 5⟩]).watermarkWrite
            = some (JsNum.int m)
        ∧ m ∈ allObservedBlocks
            ([⟨"0xvault", "WETH", "crvUSD", "ethereum", 1, [⟨100, "d", 42⟩], [], 5⟩].map
              lendingVaultStep)
        ∧ (∀ b ∈ allObservedBlocks
            ([⟨"0xvault", "WETH", "crvUSD", "ethereum", 1, [⟨100, "d", 42⟩], [], 5⟩].map
              lendingVaultStep), b ≤ m)
        ∧ (lendingPOST (fun _ => true) (some "redis") "0xuser" "ethereum" none 0
            [⟨"0xvault", "WETH", "crvUSD", "ethereum", 1, [⟨100, "d", 42⟩], [], 5⟩]).body
            = LendingBody.success
                ([⟨"0xvault", "WETH", "crvUSD", "ethereum", 1, [⟨100, "d", 42⟩], [], 5⟩].map
                  lendingVaultStep) :=
  ⟨by simp [allObservedBlocks, lendingVaultStep, logToEvent],
    c5_watermark_amended (fun _ => true) "redis" "0xuser" "ethereum" 0
      [⟨"0xvault", "WETH", "crvUSD", "ethereum", 1, [⟨100, "d", 42⟩], [], 5⟩]
      none rfl (by simp [supportedChains]) (fun entry h => by cases h)
      (by simp [allObservedBlocks, lendingVaultStep, logToEvent])⟩

/-- Counterexample to claim C7 as stated: in the `part_002` handler, when
the stats fetch succeeds (total_deposited 3, current_balance 5) but the
events fetch fails, the failure is caught yet the handler responds 200 with
totals taken from the stats (totalDeposited 3, currentBalance 5,
totalRevenues 2) and only the event list substituted by [] — not the
zero-valued result the claim demands for every upstream fetch failure. -/
theorem c7_counterexample :
    (savingsUserHandler (fun _ => true) (some "redis") "0xuser" none 0
        (some ⟨3, 0, 0, 5⟩) none).status = 200
    ∧ (savingsUserHandler (fun _ => true) (some "redis") "0xuser" none 0
        (some ⟨3, 0, 0, 5⟩) none).body
        = UserSavingsBody.success ⟨3, 5, 2, []⟩
    ∧ (⟨3, 5, 2, []⟩ : UserSavingsData) ≠ zeroUserSavingsData := by
  refine ⟨rfl, ?_, ?_⟩
  · norm_num [savingsUserHandler, savingsUserRecompute]
  · simp [zeroUserSavingsData]

/-- Claim C7 (amended): in the `part_002` handler a failed stats fetch is
caught and answered with HTTP 200 and the zero-valued result (no cache
write); a failed events fetch is caught and substituted with an empty event
list, after which the handler still responds 200 but with totals derived
from the stats (zero only when the fetched current balance is 0). -/
theorem c7_upstream_failure_amended (isAddr : String → Bool) (url user : String)
    (ce : Option (CacheEntry UserSavingsData)) (now : ℚ)
    (eventsFetch : Option (List Event)) (stats : CurveApiUserSavingStats)
    (haddr : isAddr user = true)
    (hstale : ∀ entry, ce = some entry →
      isCacheEntryUpdateNeeded entry.updateTimestamp now 60 = true) :
    ((savingsUserHandler isAddr (some url) user ce now none eventsFetch).status
        = 200
      ∧ (savingsUserHandler isAddr (some url) user ce now none eventsFetch).body
          = UserSavingsBody.success zeroUserSavingsData
      ∧ Effect.cacheWrite ∉
          (savingsUserHandler isAddr (some url) user ce now none eventsFetch).trace)
    ∧ ((savingsUserHandler isAddr (some url) user ce now (some stats) none).status
        = 200
      ∧ (savingsUserHandler isAddr (some url) user ce now (some stats) none).body
          = UserSavingsBody.success
              ⟨if stats.current_balance = 0 then 0 else stats.total_deposited,
                stats.current_balance,
                if stats.current_balance = 0 then 0
                else stats.current_balance - stats.total_deposited,
                []⟩) := by
  have hrec : ∀ (sf : Option CurveApiUserSavingStats) (ef : Option (List Event)),
      savingsUserHandler isAddr (some url) user ce now sf ef
        = savingsUserRecompute sf ef := by
    intro sf ef
    rcases ce with _ | entry
    · simp [savingsUserHandler, haddr]
    · simp [savingsUserHandler, haddr, hstale entry rfl]
  refine ⟨⟨?_, ?_, ?_⟩, ?_, ?_⟩
  · rw [hrec]; rfl
  · rw [hrec]; rfl
  · rw [hrec]
    simp [savingsUserRecompute]
  · rw [hrec]; rfl
  · rw [hrec]
    by_cases hcb : stats.current_balance = 0 <;>
      simp [savingsUserRecompute, hcb, filteredDepositsSum, filteredWithdrawalsSum]

/-- Witness for C7 (amended) on a concrete valid request whose stats fetch
failed. -/
theorem c7_upstream_failure_amended_witness :
    ((fun (_ : String) => true) "0xuser" = true)
    ∧ (savingsUserHandler (fun _ => true) (some "redis") "0xuser" none 0
        none none).status = 200
    ∧ (savingsUserHandler (fun _ => true) (some "redis") "0xuser" none 0
        none none).body = UserSavingsBody.success zeroUserSavingsData := by
  have h := c7_upstream_failure_amended (fun _ => true) "redis" "0xuser"
    none 0 none ⟨0, 0, 0, 0⟩ rfl (fun entry h => by cases h)
  exact ⟨rfl, h.1.1, h.1.2.1⟩

/-- Claim C10: on the non-success paths of the savings handlers — the
`part_002` stats-fetch failure substituted with the zero-valued result, and
the `savings.ts` empty-event-set early return — no cache write occurs, so
the cache store state is unchanged on those paths. -/
theorem c10_no_cache_write_on_nonsuccess (isAddr : String → Bool)
    (url user chain : String) (now redeemValue : ℚ)
    (ce2 : Option (CacheEntry UserSavingsData))
    (ce : Option (CacheEntry SavingsData))
    (eventsFetch : Option (List Event))
    (haddr : isAddr user = true) (hchain : chain ∈ supportedChains)
    (hstale2 : ∀ entry, ce2 = some entry →
      isCacheEntryUpdateNeeded entry.updateTimestamp now 60 = true)
    (hstale : ∀ entry, ce = some entry →
      isCacheEntryUpdateNeeded entry.updateTimestamp now 60 = true) :
    (Effect.cacheWrite ∉
        (savingsUserHandler isAddr (some url) user ce2 now none eventsFetch).trace
      ∧ (savingsUserHandler isAddr (some url) user ce2 now none eventsFetch).body
          = UserSavingsBody.success zeroUserSavingsData)
    ∧ (Effect.cacheWrite ∉
        (savingsGET isAddr (some url) user chain ce now [] [] redeemValue).trace
      ∧ (savingsGET isAddr (some url) user chain ce now [] [] redeemValue).body
          = SavingsBody.emptyResult) := by
  constructor
  · have hrec : savingsUserHandler isAddr (some url) user ce2 now none eventsFetch
        = savingsUserRecompute none eventsFetch := by
      rcases ce2 with _ | entry
      · simp [savingsUserHandler, haddr]
      · simp [savingsUserHandler, haddr, hstale2 entry rfl]
    rw [hrec]
    exact ⟨by simp [savingsUserRecompute], rfl⟩
  · have hrec : savingsGET isAddr (some url) user chain ce now [] [] redeemValue
        = savingsRecompute [] [] redeemValue := by
      rcases ce with _ | entry
      · simp [savingsGET, haddr, hchain]
      · simp [savingsGET, haddr, hchain, hstale entry rfl]
    rw [hrec]
    exact ⟨by simp [savingsRecompute], rfl⟩

/-- Witness for C10 on concrete valid requests hitting both non-success
paths. -/
theorem c10_no_cache_write_on_nonsuccess_witness :
    ((fun (_ : String) => true) "0xuser" = true)
    ∧ ("ethereum" ∈ supportedChains)
    ∧ Effect.cacheWrite ∉
        (savingsUserHandler (fun _ => true) (some "redis") "0xuser" none 0
          none none).trace
    ∧ Effect.cacheWrite ∉
        (savingsGET (fun _ => true) (some "redis") "0xuser" "ethereum" none 0
          [] [] 0).trace := by
  have h := c10_no_cache_write_on_nonsuccess (fun _ => true) "redis" "0xuser"
    "ethereum" 0 0 none none none rfl (by simp [supportedChains])
    (fun entry h => by cases h) (fun entry h => by cases h)
  exact ⟨rfl, by simp [supportedChains], h.1.1, h.2.1⟩

end CrvusdSavor
